import Mathlib

/-!
Verification of the aether fleet-orchestration core against its design
description.  The Python sources are embedded shallowly: dataclasses become
structures, the pure detection state machine becomes a total function,
fallible code returns `Option`/`Except`, and floats are idealized as `ℚ`.
-/

namespace Aether

/-! ## Telemetry data model -/

/-- Telemetry message kinds.  Mirrors the `Type` enum of the generated
telemetry module; the member strings are the ones produced by the bridge
(`HEARTBEAT`, `GLOBAL_POSITION_INT`, `ATTITUDE`, `HOME_POSITION`,
`BATTERY_STATUS`). -/
inductive TelemetryType
  | HEARTBEAT
  | GLOBAL_POSITION_INT
  | ATTITUDE
  | HOME_POSITION
  | BATTERY_STATUS
  deriving DecidableEq, Repr

/-- Modelled from the spec: the generated `DroneTelemetry` dataclass (module
`aether_common/generated/telemetry.py` is not in the source tree; only its
field usage and §3 of the design document describe it).  All fields except
`type`/`timestamp` are optional partial-update fields defaulting to `None`;
numeric floats are idealized as `ℚ`. -/
structure DroneState where
  type : TelemetryType := .HEARTBEAT
  timestamp : Option ℚ := none
  lat : Option ℚ := none
  lon : Option ℚ := none
  alt : Option ℚ := none
  armed : Option Bool := none
  mode : Option String := none
  battery_remaining : Option ℚ := none
  deriving DecidableEq, Repr

/-! ## SessionDetector (aether_common/detection.py) -/

/-- The three detector states (`DetectorStateName` literal in the source). -/
inductive DetectorStateName
  | IDLE
  | CANDIDATE
  | IN_MISSION
  deriving DecidableEq, Repr

/-- `DetectorState` dataclass: serializable detector variables. -/
structure DetectorState where
  state_name : DetectorStateName := .IDLE
  start_sample : Option DroneState := none
  home_position : Option DroneState := none
  last_processed_timestamp : ℚ := 0
  deriving DecidableEq, Repr

/-- Events returned by `MissionDetector.evaluate`. -/
inductive MissionEvent
  | MISSION_STARTED
  | MISSION_ENDED
  deriving DecidableEq, Repr

def MIN_DURATION_SEC : ℚ := 30

def MIN_DISTANCE_M : ℚ := 10

/-- The squared 10 m threshold (`MIN_DISTANCE_M * MIN_DISTANCE_M`), against
which the squared scaled distance is compared. -/
def MIN_DISTANCE_SQ : ℚ := MIN_DISTANCE_M * MIN_DISTANCE_M

/-- Squared, scaled form of `MissionDetector._calculate_distance`.  The source
computes `sqrt((lat2-lat1)**2 + (lon2-lon1)**2) * 111139` and compares it with
the 10 m threshold; since both sides of that comparison are nonnegative,
`sqrt(q) * 111139 ≥ d  ↔  q * 111139² ≥ d²`, so the embedding carries the
squared value and compares against the squared threshold, staying in `ℚ`
(see `distance_threshold_sq_iff` below for the justification).  When any
coordinate is missing the source returns `0.0`, which fails the threshold;
here the squared value is `0`, which fails the squared threshold. -/
def calculate_distance_sq (s1 s2 : DroneState) : ℚ :=
  match s1.lat, s1.lon, s2.lat, s2.lon with
  | some lat1, some lon1, some lat2, some lon2 =>
      ((lat2 - lat1) * (lat2 - lat1) + (lon2 - lon1) * (lon2 - lon1)) *
        (111139 * 111139)
  | _, _, _, _ => 0

/-- Justifies the squared rendering of the distance threshold: over the reals,
for a nonnegative squared-degree sum `q`, positive scale `c` and nonnegative
threshold `d`, comparing `sqrt q * c` with `d` is the same as comparing
`q * c²` with `d²`. -/
theorem distance_threshold_sq_iff (q c d : ℝ) (hq : 0 ≤ q) (hc : 0 < c)
    (hd : 0 ≤ d) : d ≤ Real.sqrt q * c ↔ d ^ 2 ≤ q * c ^ 2 := by
  have h1 : Real.sqrt q * c = Real.sqrt (q * c ^ 2) := by
    rw [Real.sqrt_mul hq, Real.sqrt_sq hc.le]
  rw [h1, Real.le_sqrt hd]
  positivity

/-- The reference-selection / backfill step of the CANDIDATE branch of
`MissionDetector.evaluate` (source comments "Backfill Position if missing").
Returns `(ref_sample, start')` where `start'` is the (possibly backfilled)
start sample: if `start.lat` is missing, a known home position is preferred
as reference; otherwise, if the current sample has a fix, `start` is
backfilled with it (the source mutates `start` in place; here a new value is
returned). -/
def candidate_ref (home : Option DroneState) (start sample : DroneState) :
    DroneState × DroneState :=
  if start.lat = none then
    match home with
    | some h => (h, start)
    | none =>
        if sample.lat ≠ none then
          let b := { start with lat := sample.lat, lon := sample.lon,
                                alt := sample.alt }
          (b, b)
        else (start, start)
  else (start, start)

/-- `MissionDetector.evaluate`: the pure transition function
`(State, Input) -> (NewState, Event)`.  `none` models the one Python
exception path (`sample.timestamp - start.timestamp` with a `None` start
timestamp raises `TypeError`).  The timestamp guard is the source's falsiness
test `if not sample.timestamp`, which drops both a missing timestamp and a
timestamp of exactly `0`. -/
def evaluate (current_state : DetectorState) (sample : DroneState) :
    Option (DetectorState × Option MissionEvent) :=
  match sample.timestamp with
  | none => some (current_state, none)
  | some t =>
    if t = 0 then some (current_state, none)
    else if sample.type = .HOME_POSITION then
      some ({ current_state with home_position := some sample }, none)
    else
      match current_state.state_name with
      | .IDLE =>
          if sample.armed = some true then
            some (⟨.CANDIDATE, some sample, current_state.home_position, t⟩,
                  none)
          else some (current_state, none)
      | .CANDIDATE =>
          if sample.armed = some false then
            some (⟨.IDLE, none, current_state.home_position, 0⟩, none)
          else
            match current_state.start_sample with
            | none => some (⟨.IDLE, none, none, 0⟩, none)
            | some start =>
                match start.timestamp with
                | none => none
                | some st =>
                    if MIN_DURATION_SEC ≤ t - st ∧
                        MIN_DISTANCE_SQ ≤ calculate_distance_sq
                          (candidate_ref current_state.home_position start
                            sample).1 sample
                    then
                      some (⟨.IN_MISSION,
                             some (candidate_ref current_state.home_position
                               start sample).2,
                             current_state.home_position, t⟩,
                            some .MISSION_STARTED)
                    else
                      some ({ current_state with start_sample := some (candidate_ref current_state.home_position start sample).2 },
                            none)
      | .IN_MISSION =>
          if sample.armed = some false then
            some (⟨.IDLE, none, none, 0⟩, some .MISSION_ENDED)
          else
            some ({ current_state with last_processed_timestamp := t }, none)

/-! ## Concrete detector scenarios -/

/-- Sample at t = 100: armed, at the origin (end-to-end scenario, step 1). -/
def c5_sample1 : DroneState :=
  { type := .HEARTBEAT, timestamp := some 100, lat := some 0, lon := some 0,
    alt := some 10, armed := some true }

/-- Sample at t = 135: armed, 0.0002° of latitude from the origin
(end-to-end scenario, step 2). -/
def c5_sample2 : DroneState :=
  { type := .HEARTBEAT, timestamp := some 135, lat := some (2 / 10000),
    lon := some 0, alt := some 10, armed := some true }

/-- Sample at t = 200: disarmed (end-to-end scenario, step 3). -/
def c5_sample3 : DroneState :=
  { type := .HEARTBEAT, timestamp := some 200, armed := some false }

/-- A CANDIDATE detector state that carries no `start_sample` (the source's
"Safety" branch resets such a state to IDLE). -/
def c3_state : DetectorState := ⟨.CANDIDATE, none, none, 0⟩

/-- A partial-update sample: valid timestamp, `armed` unknown. -/
def c3_sample : DroneState := { type := .HEARTBEAT, timestamp := some 1 }

/-- A recorded home-position sample. -/
def c4_home : DroneState :=
  { type := .HOME_POSITION, timestamp := some 90, lat := some 0, lon := some 0,
    alt := some 0, armed := some false }

/-- An IN_MISSION detector state that knows its home position. -/
def c4_state : DetectorState := ⟨.IN_MISSION, some c5_sample1, some c4_home, 100⟩

/-! ## Claims about the SessionDetector -/

/-- Claim C10: a sample whose timestamp is missing or exactly `0` is returned
unchanged with no event, before any state logic (including home-position
absorption) runs: the source's `if not sample.timestamp` is a falsiness
check, so timestamp `0` is treated like a missing timestamp. -/
theorem timestamp_falsiness_guard (s : DetectorState) (x : DroneState)
    (h : x.timestamp = none ∨ x.timestamp = some 0) :
    evaluate s x = some (s, none) := by
  unfold evaluate
  rcases h with h | h <;> rw [h] <;> simp

/-- Witness for `timestamp_falsiness_guard`: a HOME_POSITION sample stamped
exactly 0 is dropped without being absorbed. -/
theorem timestamp_falsiness_guard_witness :
    evaluate ⟨.IDLE, none, none, 0⟩
        { type := .HOME_POSITION, timestamp := some 0, lat := some 1,
          lon := some 1 } =
      some (⟨.IDLE, none, none, 0⟩, none) :=
  timestamp_falsiness_guard _ _ (Or.inr rfl)

/-- Claim C1: `MISSION_STARTED` is emitted only on a transition out of
CANDIDATE into IN_MISSION, and only when the sample's timestamp minus the
start sample's timestamp is at least `MIN_DURATION_SEC = 30` and the planar
distance from the reference position to the sample is at least
`MIN_DISTANCE_M = 10` (stated via the squared threshold); in particular
duration alone, with the distance below threshold, never emits the event. -/
theorem mission_started_only_from_candidate (s : DetectorState)
    (x : DroneState) (s' : DetectorState) (ev : Option MissionEvent)
    (h : evaluate s x = some (s', ev)) (hev : ev = some .MISSION_STARTED) :
    s.state_name = .CANDIDATE ∧ s'.state_name = .IN_MISSION ∧
    ∃ start t st, s.start_sample = some start ∧ x.timestamp = some t ∧
      start.timestamp = some st ∧ MIN_DURATION_SEC ≤ t - st ∧
      MIN_DISTANCE_SQ ≤
        calculate_distance_sq (candidate_ref s.home_position start x).1 x := by
  subst hev
  unfold evaluate at h
  split at h
  · simp at h
  next t htx =>
    split at h
    · simp at h
    split at h
    · simp at h
    split at h
    next hsn =>
      split at h <;> simp at h
    next hsn =>
      split at h
      · simp at h
      split at h
      · simp at h
      next start hstart =>
        split at h
        · simp at h
        next st hst =>
          split at h
          next hcrit =>
            simp only [Option.some.injEq, Prod.mk.injEq] at h
            obtain ⟨rfl, -⟩ := h
            exact ⟨hsn, rfl, start, t, st, hstart, htx, hst, hcrit.1, hcrit.2⟩
          · simp at h
    next hsn =>
      split at h <;> simp at h

/-- Witness for `mission_started_only_from_candidate`: the end-to-end
scenario's confirming step. -/
theorem mission_started_only_from_candidate_witness :
    (⟨.CANDIDATE, some c5_sample1, none, 100⟩ : DetectorState).state_name =
        .CANDIDATE ∧
    (⟨.IN_MISSION, some c5_sample1, none, 135⟩ : DetectorState).state_name =
        .IN_MISSION ∧
    ∃ start t st,
      (⟨.CANDIDATE, some c5_sample1, none, 100⟩ :
          DetectorState).start_sample = some start ∧
      c5_sample2.timestamp = some t ∧ start.timestamp = some st ∧
      MIN_DURATION_SEC ≤ t - st ∧
      MIN_DISTANCE_SQ ≤
        calculate_distance_sq
          (candidate_ref
            (⟨.CANDIDATE, some c5_sample1, none, 100⟩ :
                DetectorState).home_position start c5_sample2).1 c5_sample2 :=
  mission_started_only_from_candidate _ c5_sample2
    ⟨.IN_MISSION, some c5_sample1, none, 135⟩ (some .MISSION_STARTED)
    (by simp [evaluate, candidate_ref, calculate_distance_sq, c5_sample1,
          c5_sample2, MIN_DURATION_SEC, MIN_DISTANCE_SQ, MIN_DISTANCE_M] <;>
        norm_num) rfl

/-- Counterexample to claim C3 as stated: a CANDIDATE state with no
`start_sample`, fed a sample with `armed = none`, resets to IDLE through the
source's "Safety" branch. -/
theorem candidate_no_start_resets_on_partial_update :
    (evaluate c3_state c3_sample).map (fun r => r.1.state_name) =
        some .IDLE ∧
    c3_state.state_name = .CANDIDATE ∧ c3_sample.armed = none := by
  refine ⟨?_, rfl, rfl⟩
  simp [evaluate, c3_state, c3_sample]

/-- Claim C3 (amended): a CANDIDATE state that carries a `start_sample`, fed
a sample with `armed = none`, never transitions to IDLE. -/
theorem candidate_partial_update_never_idle (s : DetectorState)
    (x : DroneState) (start : DroneState) (s' : DetectorState)
    (ev : Option MissionEvent)
    (hsn : s.state_name = .CANDIDATE) (hstart : s.start_sample = some start)
    (harm : x.armed = none) (h : evaluate s x = some (s', ev)) :
    s'.state_name ≠ .IDLE := by
  unfold evaluate at h
  split at h
  · simp only [Option.some.injEq, Prod.mk.injEq] at h
    obtain ⟨rfl, -⟩ := h
    simp [hsn]
  next t htx =>
    split at h
    · simp only [Option.some.injEq, Prod.mk.injEq] at h
      obtain ⟨rfl, -⟩ := h
      simp [hsn]
    split at h
    · simp only [Option.some.injEq, Prod.mk.injEq] at h
      obtain ⟨rfl, -⟩ := h
      simp [hsn]
    split at h
    next h' => simp [h'] at hsn
    next =>
      split at h
      next harm' => simp [harm'] at harm
      split at h
      next hnone => simp [hnone] at hstart
      next start' hstart' =>
        split at h
        · simp at h
        next st hst =>
          split at h
          · simp only [Option.some.injEq, Prod.mk.injEq] at h
            obtain ⟨rfl, -⟩ := h
            simp
          · simp only [Option.some.injEq, Prod.mk.injEq] at h
            obtain ⟨rfl, -⟩ := h
            simp [hsn]
    next h' => simp [h'] at hsn

/-- A position-only partial update at t = 110 (armed unknown). -/
def c3_pos_sample : DroneState :=
  { type := .GLOBAL_POSITION_INT, timestamp := some 110, lat := some 0,
    lon := some 0 }

/-- Witness for `candidate_partial_update_never_idle`: a CANDIDATE holding
the t=100 start sample, fed a position-only sample at t=110, stays
CANDIDATE. -/
theorem candidate_partial_update_never_idle_witness :
    (⟨.CANDIDATE, some c5_sample1, none, 100⟩ : DetectorState).state_name ≠
      .IDLE :=
  candidate_partial_update_never_idle
    ⟨.CANDIDATE, some c5_sample1, none, 100⟩ c3_pos_sample c5_sample1
    ⟨.CANDIDATE, some c5_sample1, none, 100⟩ none rfl rfl rfl
    (by simp [evaluate, candidate_ref, calculate_distance_sq, c5_sample1,
          c3_pos_sample, MIN_DURATION_SEC, MIN_DISTANCE_SQ, MIN_DISTANCE_M] <;>
        norm_num)

/-- Counterexample to claim C4 as stated: the IN_MISSION disarm reset
(`MISSION_ENDED`) returns `DetectorState("IDLE")` with all defaults,
discarding a known `home_position`. -/
theorem in_mission_reset_drops_home :
    (evaluate c4_state c5_sample3).map (fun r => (r.1.home_position, r.2)) =
        some (none, some .MISSION_ENDED) ∧
    c4_state.home_position = some c4_home := by
  refine ⟨?_, rfl⟩
  simp [evaluate, c4_state, c5_sample3]

/-- Claim C4 (amended): the CANDIDATE disarm reset preserves
`home_position`; the IN_MISSION disarm reset (which emits `MISSION_ENDED`)
and the CANDIDATE missing-start safety reset return a fresh IDLE state whose
`home_position` is `none`. -/
theorem home_position_reset_behavior (s : DetectorState) (x : DroneState)
    (s' : DetectorState) (ev : Option MissionEvent)
    (h : evaluate s x = some (s', ev)) :
    (s.state_name = .CANDIDATE → x.armed = some false →
       s'.state_name = .IDLE → s'.home_position = s.home_position) ∧
    (s.state_name = .IN_MISSION → ev = some .MISSION_ENDED →
       s'.home_position = none) ∧
    (s.state_name = .CANDIDATE → x.armed ≠ some false →
       s'.state_name = .IDLE → s'.home_position = none) := by
  unfold evaluate at h
  repeat' split at h
  all_goals
    first
    | exact Option.noConfusion h
    | (injection h with h
       injection h with h1 h2
       subst h1
       subst h2
       refine ⟨?_, ?_, ?_⟩ <;> intros <;> simp_all)

/-- Witness for `home_position_reset_behavior`: the CANDIDATE disarm reset
with a known home position. -/
theorem home_position_reset_behavior_witness :
    ((⟨.CANDIDATE, some c5_sample1, some c4_home, 100⟩ :
        DetectorState).state_name = .CANDIDATE → c5_sample3.armed = some false →
      (⟨.IDLE, none, some c4_home, 0⟩ : DetectorState).state_name = .IDLE →
      (⟨.IDLE, none, some c4_home, 0⟩ : DetectorState).home_position =
        (⟨.CANDIDATE, some c5_sample1, some c4_home, 100⟩ :
            DetectorState).home_position) ∧
    ((⟨.CANDIDATE, some c5_sample1, some c4_home, 100⟩ :
        DetectorState).state_name = .IN_MISSION →
      (none : Option MissionEvent) = some .MISSION_ENDED →
      (⟨.IDLE, none, some c4_home, 0⟩ : DetectorState).home_position = none) ∧
    ((⟨.CANDIDATE, some c5_sample1, some c4_home, 100⟩ :
        DetectorState).state_name = .CANDIDATE →
      c5_sample3.armed ≠ some false →
      (⟨.IDLE, none, some c4_home, 0⟩ : DetectorState).state_name = .IDLE →
      (⟨.IDLE, none, some c4_home, 0⟩ : DetectorState).home_position = none) :=
  home_position_reset_behavior
    ⟨.CANDIDATE, some c5_sample1, some c4_home, 100⟩ c5_sample3
    ⟨.IDLE, none, some c4_home, 0⟩ (none : Option MissionEvent)
    (by simp [evaluate, c5_sample3])

/-- Claim C5: the end-to-end scenario.  From IDLE: the armed sample at t=100
yields CANDIDATE with no event; the armed sample 0.0002° away at t=135
yields IN_MISSION with `MISSION_STARTED` (35 s ≥ 30 s, and squared scaled
distance (0.0002·111139)² ≈ 22.2 m squared ≥ 10 m squared); the disarmed
sample at t=200 yields IDLE with `MISSION_ENDED`. -/
theorem end_to_end_scenario :
    evaluate ⟨.IDLE, none, none, 0⟩ c5_sample1 =
        some (⟨.CANDIDATE, some c5_sample1, none, 100⟩, none) ∧
    evaluate ⟨.CANDIDATE, some c5_sample1, none, 100⟩ c5_sample2 =
        some (⟨.IN_MISSION, some c5_sample1, none, 135⟩,
              some .MISSION_STARTED) ∧
    evaluate ⟨.IN_MISSION, some c5_sample1, none, 135⟩ c5_sample3 =
        some (⟨.IDLE, none, none, 0⟩, some .MISSION_ENDED) := by
  refine ⟨?_, ?_, ?_⟩ <;>
    simp [evaluate, candidate_ref, calculate_distance_sq, c5_sample1,
      c5_sample2, c5_sample3, MIN_DURATION_SEC, MIN_DISTANCE_SQ,
      MIN_DISTANCE_M] <;> norm_num

/-! ## MissionUploadProtocol (cloud-bridge/src/mission.py) -/

/-- `MissionItem`: simple container matching the MAVLink structure. -/
structure MissionItem where
  command : ℤ
  x : ℚ
  y : ℚ
  z : ℚ
  param1 : ℚ := 0
  param2 : ℚ := 0
  param3 : ℚ := 0
  deriving DecidableEq, Repr

/-- `MAV_FRAME_GLOBAL_RELATIVE_ALT` (= 3), the frame used for every uploaded
item. -/
def MAV_FRAME_GLOBAL_RELATIVE_ALT : ℕ := 3

/-- Truncation toward zero: the behavior of Python `int()` on a float. -/
def int_trunc (q : ℚ) : ℤ := if 0 ≤ q then q.floor else q.ceil

/-- Outbound MAVLink messages produced during the mission-upload handshake:
`mission_count_send` and `mission_item_int_send` (target system/component
omitted; the remaining wire fields are kept in call order). -/
inductive MavOutMsg
  | missionCount (count : ℕ) (mission_type : ℕ)
  | missionItemInt (seq : ℕ) (frame : ℕ) (command : ℤ)
      (current autocontinue : ℕ) (param1 param2 param3 param4 : ℚ)
      (x y : ℤ) (z : ℚ) (mission_type : ℕ)
  deriving DecidableEq, Repr

/-- Inbound messages seen by `MissionManager.on_mavlink_message`.  Only
`MISSION_REQUEST` drives the handshake; `seq` and `mission_type` are unsigned
MAVLink wire fields (`uint16` and `uint8`), hence `ℕ`. -/
inductive MavInMsg
  | missionRequest (seq : ℕ) (mission_type : ℕ)
  | otherMessage
  deriving DecidableEq, Repr

/-- Lookup in `current_mission_items` (a `Map[mission_type] -> List[MissionItem]`). -/
def lookupItems : List (ℕ × List MissionItem) → ℕ → Option (List MissionItem)
  | [], _ => none
  | (k, v) :: rest, ty => if k = ty then some v else lookupItems rest ty

/-- Update of `current_mission_items[mission_type] = items`. -/
def storeItems : List (ℕ × List MissionItem) → ℕ → List MissionItem →
    List (ℕ × List MissionItem)
  | [], ty, its => [(ty, its)]
  | (k, v) :: rest, ty, its =>
      if k = ty then (ty, its) :: rest else (k, v) :: storeItems rest ty its

/-- `MissionManager._upload_list`: with an empty list it returns at once
(nothing stored, nothing sent); otherwise it stores the items under the
list type and sends exactly one `MISSION_COUNT` carrying the length and the
type.  Returns the new store and the messages sent. -/
def upload_list (store : List (ℕ × List MissionItem))
    (items : List MissionItem) (mission_type : ℕ) :
    List (ℕ × List MissionItem) × List MavOutMsg :=
  if items.length = 0 then (store, [])
  else (storeItems store mission_type items,
        [.missionCount items.length mission_type])

/-- The `mission_item_int_send` call issued for a granted `MISSION_REQUEST`:
frame `MAV_FRAME_GLOBAL_RELATIVE_ALT`, `current = 0`, `autocontinue = 1`,
`param4 = 0`, latitude/longitude scaled by `1e7` and truncated to integers
(`int(item.x * 1e7)`), altitude passed through as a plain float. -/
def encode_item (seq : ℕ) (mission_type : ℕ) (item : MissionItem) :
    MavOutMsg :=
  .missionItemInt seq MAV_FRAME_GLOBAL_RELATIVE_ALT item.command 0 1
    item.param1 item.param2 item.param3 0
    (int_trunc (item.x * 10000000)) (int_trunc (item.y * 10000000)) item.z
    mission_type

/-- `MissionManager.on_mavlink_message`: on `MISSION_REQUEST (seq, type)` it
sends the stored item at index `seq` when the stored list is non-empty
(Python truthiness of `items`) and `seq < len(items)`; otherwise it logs a
warning and sends nothing.  All other message kinds are ignored.  Returns
the messages sent. -/
def on_mavlink_message (store : List (ℕ × List MissionItem))
    (msg : MavInMsg) : List MavOutMsg :=
  match msg with
  | .missionRequest seq ty =>
      match lookupItems store ty with
      | none => []
      | some items =>
          if h : items ≠ [] ∧ seq < items.length then
            [encode_item seq ty (items.get ⟨seq, h.2⟩)]
          else []
  | .otherMessage => []

/-- Storing a list and reading it back under the same type. -/
theorem lookupItems_storeItems (store : List (ℕ × List MissionItem))
    (ty : ℕ) (its : List MissionItem) :
    lookupItems (storeItems store ty its) ty = some its := by
  induction store with
  | nil => simp [storeItems, lookupItems]
  | cons kv rest ih =>
      by_cases h : kv.1 = ty
      · simp [storeItems, lookupItems, h]
      · simp [storeItems, lookupItems, h, ih]

/-! ## CommandCorrelator (cloud-bridge/src/mavlink.py) -/

/-- Events observed by one in-flight `send_command_long_async` call, in
order of occurrence on the (single-threaded) event loop: a `COMMAND_ACK`
matching this command id (with its MAVLink `result`), the expiry of this
call's `asyncio.wait_for` timeout, or any other event (an ack for a
different command id, telemetry, ...), which does not touch this entry. -/
inductive CorrEvent
  | ack (result : ℤ)
  | timeout
  | otherEvent
  deriving DecidableEq, Repr

/-- The correlator entry for one command: `pending` models membership of the
unresolved Future in `pending_commands`; `outcome` is the boolean returned
to the caller once the await resolved (`result == 0` on an ack, `False` on
timeout); `none` while the caller is still awaiting. -/
structure CorrState where
  pending : Bool
  outcome : Option Bool
  deriving DecidableEq, Repr

/-- The entry as registered by `send_command_long_async` before awaiting:
Future created and stored, caller not yet resolved. -/
def corr_send : CorrState := ⟨true, none⟩

/-- One event against the entry.  `ack`: `handle_command_ack` pops the entry
if present and resolves the Future unless it is already done, whereupon the
await returns `result == 0`; an ack with no pending entry is logged and
discarded.  `timeout`: the `asyncio.TimeoutError` branch pops the entry and
returns `False`; once the call has resolved, `wait_for` has returned and its
timer is cancelled, so a timeout is a no-op.  Other traffic never touches
the entry. -/
def corr_step (s : CorrState) (e : CorrEvent) : CorrState :=
  match e with
  | .ack r =>
      if s.pending then
        ⟨false, if s.outcome = none then some (r == 0) else s.outcome⟩
      else s
  | .timeout => if s.outcome = none then ⟨false, some false⟩ else s
  | .otherEvent => s

/-- The entry after `send_command_long_async` registers it and the event
trace `events` plays out. -/
def corr_run (events : List CorrEvent) : CorrState :=
  events.foldl corr_step corr_send

/-- A resolved outcome is absorbing: no later event changes it. -/
theorem corr_step_outcome_absorbs (s : CorrState) (e : CorrEvent) (b : Bool)
    (h : s.outcome = some b) : (corr_step s e).outcome = some b := by
  cases e <;> simp [corr_step, h] <;> split <;> simp [h]

/-- A fully resolved, popped entry is a fixed point of the whole trace. -/
theorem corr_foldl_resolved (post : List CorrEvent) (b : Bool) :
    List.foldl corr_step ⟨false, some b⟩ post = ⟨false, some b⟩ := by
  induction post with
  | nil => rfl
  | cons e rest ih => cases e <;> simpa [corr_step] using ih

/-- Before any ack or timeout, the entry is still exactly as registered. -/
theorem corr_foldl_other (pre : List CorrEvent)
    (hack : ∀ r, CorrEvent.ack r ∉ pre) (hto : CorrEvent.timeout ∉ pre) :
    List.foldl corr_step corr_send pre = corr_send := by
  induction pre with
  | nil => rfl
  | cons e rest ih =>
      cases e with
      | ack r => exact absurd (List.mem_cons_self _ _) (hack r)
      | timeout => exact absurd (List.mem_cons_self _ _) hto
      | otherEvent =>
          simp only [List.foldl_cons, corr_step]
          exact ih (fun r hr => hack r (List.mem_cons_of_mem _ hr))
            (fun hr => hto (List.mem_cons_of_mem _ hr))

/-- With no ack in the prefix, the entry is registered-and-waiting or
already failed by an earlier timeout. -/
theorem corr_foldl_noack (pre : List CorrEvent)
    (hack : ∀ r, CorrEvent.ack r ∉ pre) :
    List.foldl corr_step corr_send pre = corr_send ∨
    List.foldl corr_step corr_send pre = ⟨false, some false⟩ := by
  induction pre with
  | nil => exact Or.inl rfl
  | cons e rest ih =>
      cases e with
      | ack r => exact absurd (List.mem_cons_self _ _) (hack r)
      | timeout =>
          simp only [List.foldl_cons, corr_step, corr_send]
          right
          simpa [corr_run] using
            corr_foldl_resolved rest false
      | otherEvent =>
          simp only [List.foldl_cons, corr_step]
          exact ih (fun r hr => hack r (List.mem_cons_of_mem _ hr))

/-! ## Claims about the upload handshake and the correlator -/

/-- Claim C6: `_upload_list` with an empty list sends no count message and
stores nothing; with `N > 0` items it sends exactly one `MISSION_COUNT`
carrying `N` and the list type, and a later `MISSION_REQUEST (seq, type)`
with `seq < N` sends exactly the item originally at index `seq` of that
list. -/
theorem upload_count_and_item_retrieval
    (store : List (ℕ × List MissionItem)) (items : List MissionItem)
    (ty : ℕ) :
    (items = [] → upload_list store items ty = (store, [])) ∧
    (items ≠ [] →
       (upload_list store items ty).2 = [.missionCount items.length ty] ∧
       ∀ seq (h : seq < items.length),
         on_mavlink_message (upload_list store items ty).1
             (.missionRequest seq ty) =
           [encode_item seq ty (items.get ⟨seq, h⟩)]) := by
  constructor
  · intro h
    subst h
    simp [upload_list]
  · intro hne
    have hlen : items.length ≠ 0 := by simpa [List.length_eq_zero] using hne
    refine ⟨by simp [upload_list, hlen], ?_⟩
    intro seq h
    have hstore : (upload_list store items ty).1 = storeItems store ty items := by
      simp [upload_list, hlen]
    rw [hstore]
    simp only [on_mavlink_message, lookupItems_storeItems]
    rw [dif_pos ⟨hne, h⟩]

/-- The three fence vertices of the scenario `upload('fence', [v1,v2,v3])`. -/
def c6_items : List MissionItem :=
  [{ command := 5001, x := 1, y := 2, z := 0, param1 := 3 },
   { command := 5001, x := 1/2, y := -2, z := 0, param1 := 3 },
   { command := 5001, x := -1/2, y := 0, z := 0, param1 := 3 }]

/-- Witness for `upload_count_and_item_retrieval`: uploading three fence
items (type 1) sends `count = 3`, and requesting `seq = 2` returns the third
item. -/
theorem upload_count_and_item_retrieval_witness :
    (upload_list [] c6_items 1).2 = [.missionCount c6_items.length 1] ∧
    on_mavlink_message (upload_list [] c6_items 1).1 (.missionRequest 2 1) =
      [encode_item 2 1 { command := 5001, x := -1/2, y := 0, z := 0,
                         param1 := 3 }] := by
  have h := (upload_count_and_item_retrieval [] c6_items 1).2
    (by simp [c6_items])
  exact ⟨h.1, h.2 2 (by simp [c6_items])⟩

/-- Claim C7: a `MISSION_REQUEST` whose sequence number is out of range for
the stored list (or whose list type has nothing stored, the vacuous case of
the first hypothesis) sends no mission item — logged and ignored; an item
message is sent only for an in-range request, and it carries the latitude
and longitude scaled by `1e7` into fixed-point integers
(`int_trunc (· * 10000000)`, Python's `int(item.x * 1e7)`) and the altitude
as a plain float. -/
theorem request_guard_and_scaling (store : List (ℕ × List MissionItem))
    (seq ty : ℕ) :
    ((∀ items, lookupItems store ty = some items → items.length ≤ seq) →
       on_mavlink_message store (.missionRequest seq ty) = []) ∧
    (∀ items, lookupItems store ty = some items → ∀ h : seq < items.length,
       on_mavlink_message store (.missionRequest seq ty) =
         [MavOutMsg.missionItemInt seq MAV_FRAME_GLOBAL_RELATIVE_ALT
            (items.get ⟨seq, h⟩).command 0 1 (items.get ⟨seq, h⟩).param1
            (items.get ⟨seq, h⟩).param2 (items.get ⟨seq, h⟩).param3 0
            (int_trunc ((items.get ⟨seq, h⟩).x * 10000000))
            (int_trunc ((items.get ⟨seq, h⟩).y * 10000000))
            (items.get ⟨seq, h⟩).z ty]) := by
  constructor
  · intro hout
    cases hl : lookupItems store ty with
    | none => simp [on_mavlink_message, hl]
    | some items =>
        have hle := hout items hl
        have h2 : ¬(items ≠ [] ∧ seq < items.length) := by
          rintro ⟨-, hlt⟩
          exact absurd hlt (Nat.not_lt.mpr hle)
        simp [on_mavlink_message, hl, h2]
  · intro items hl h
    have hne : items ≠ [] := by
      intro he
      subst he
      simp at h
    simp only [on_mavlink_message, hl]
    rw [dif_pos ⟨hne, h⟩]
    rfl

/-- Witness for `request_guard_and_scaling`: with only list type 1 stored,
an unknown-type request and an out-of-range request send nothing, and the
in-range request `seq = 0` sends the item with coordinates ×1e7. -/
theorem request_guard_and_scaling_witness :
    on_mavlink_message [(1, c6_items)] (.missionRequest 7 1) = [] ∧
    on_mavlink_message [(1, c6_items)] (.missionRequest 0 0) = [] ∧
    on_mavlink_message [(1, c6_items)] (.missionRequest 0 1) =
      [MavOutMsg.missionItemInt 0 MAV_FRAME_GLOBAL_RELATIVE_ALT
         (c6_items.get ⟨0, by simp [c6_items]⟩).command 0 1
         (c6_items.get ⟨0, by simp [c6_items]⟩).param1
         (c6_items.get ⟨0, by simp [c6_items]⟩).param2
         (c6_items.get ⟨0, by simp [c6_items]⟩).param3 0
         (int_trunc ((c6_items.get ⟨0, by simp [c6_items]⟩).x * 10000000))
         (int_trunc ((c6_items.get ⟨0, by simp [c6_items]⟩).y * 10000000))
         (c6_items.get ⟨0, by simp [c6_items]⟩).z 1] :=
  ⟨(request_guard_and_scaling [(1, c6_items)] 7 1).1
      (fun items hi => by
        simp only [lookupItems, if_pos, Option.some.injEq] at hi
        subst hi
        norm_num [c6_items]),
   (request_guard_and_scaling [(1, c6_items)] 0 0).1
      (fun items hi => by simp [lookupItems] at hi),
   (request_guard_and_scaling [(1, c6_items)] 0 1).2 c6_items
      (by simp [lookupItems]) (by simp [c6_items])⟩

/-- Claim C8: a command with no matching acknowledgment is still unresolved
before its timeout event and resolves to `False` exactly at it — never
before, never hanging after; when both an acknowledgment and the timeout
occur, whichever comes first fixes the outcome (`result == 0` for the ack,
`False` for the timeout) and the later event is a no-op against the
already-resolved entry. -/
theorem command_timeout_resolution :
    (∀ tr : List CorrEvent, (∀ r, CorrEvent.ack r ∉ tr) →
       CorrEvent.timeout ∉ tr → (corr_run tr).outcome = none) ∧
    (∀ pre post : List CorrEvent, (∀ r, CorrEvent.ack r ∉ pre) →
       (corr_run (pre ++ CorrEvent.timeout :: post)).outcome = some false) ∧
    (∀ (pre post : List CorrEvent) (r : ℤ), (∀ x, CorrEvent.ack x ∉ pre) →
       CorrEvent.timeout ∉ pre →
       (corr_run (pre ++ CorrEvent.ack r :: post)).outcome = some (r == 0)) ∧
    (∀ (s : CorrState) (e : CorrEvent) (b : Bool), s.outcome = some b →
       (corr_step s e).outcome = some b) := by
  refine ⟨?_, ?_, ?_, corr_step_outcome_absorbs⟩
  · intro tr hack hto
    rw [corr_run, corr_foldl_other tr hack hto]
    rfl
  · intro pre post hack
    rw [corr_run, List.foldl_append]
    rcases corr_foldl_noack pre hack with h | h <;> rw [h]
    · have h1 : corr_step corr_send CorrEvent.timeout = ⟨false, some false⟩ := by
        simp [corr_step, corr_send]
      rw [List.foldl_cons, h1, corr_foldl_resolved]
    · have h1 : corr_step ⟨false, some false⟩ CorrEvent.timeout =
          ⟨false, some false⟩ := by simp [corr_step]
      rw [List.foldl_cons, h1, corr_foldl_resolved]
  · intro pre post r hack hto
    rw [corr_run, List.foldl_append, corr_foldl_other pre hack hto]
    have h1 : corr_step corr_send (CorrEvent.ack r) = ⟨false, some (r == 0)⟩ := by
      simp [corr_step, corr_send]
    rw [List.foldl_cons, h1, corr_foldl_resolved]

/-- Witness for `command_timeout_resolution`: unrelated traffic, then the
timeout, then a late (discarded) successful ack: the call returns `False`. -/
theorem command_timeout_resolution_witness :
    (corr_run [CorrEvent.otherEvent, CorrEvent.timeout,
               CorrEvent.ack 0]).outcome = some false :=
  command_timeout_resolution.2.1 [CorrEvent.otherEvent] [CorrEvent.ack 0]
    (fun r hr => by simp at hr)

/-! ## JSON dictionaries -/

/-- A JSON-ish payload value, as carried by telemetry and mission-plan
dictionaries. -/
inductive JValue
  | str (s : String)
  | num (q : ℚ)
  | bool (b : Bool)
  | null
  deriving DecidableEq, Repr

/-- A decoded JSON object: an association list of fields. -/
abbrev JDict := List (String × JValue)

/-- First-match field lookup (`data.get(k)` on a dict). -/
def lookupKey (k : String) : JDict → Option JValue
  | [] => none
  | (k', v) :: rest => if k' = k then some v else lookupKey k rest

/-! ## DroneEntityWorkflow (orchestrator/src/workflows.py) -/

/-- The coarse status strings the entity workflow ever assigns: the source
only writes `"OFFLINE"` (initial), `"ONLINE_IDLE"` and `"ONLINE_ARMED"`
(from `signal_telemetry`); no `IDLE`/`ON_MISSION` status exists in the
code. -/
inductive ActorStatus
  | OFFLINE
  | ONLINE_IDLE
  | ONLINE_ARMED
  deriving DecidableEq, Repr

/-- The instance fields of `DroneEntityWorkflow`. -/
structure ActorState where
  status : ActorStatus := .OFFLINE
  exit_requested : Bool := false
  latest_telemetry : Option DroneState := none
  session_start_sample : Option DroneState := none
  active_session_handle : Option String := none
  deriving DecidableEq, Repr

/-- Observable actions of a signal handler. -/
inductive ActorAction
  | logAssign (planId : JValue)
  deriving DecidableEq, Repr

/-- `DroneEntityWorkflow.assign_mission`: the handler logs the plan id
(`mission_plan.get('id', 'unknown')`) and returns.  It reads no status,
mutates no field and starts no child workflow — the body below the log line
is only the comment "In future: ... start_child_workflow(MissionWorkflow...)". -/
def assign_mission (s : ActorState) (mission_plan : JDict) :
    ActorState × List ActorAction :=
  (s, [.logAssign ((lookupKey "id" mission_plan).getD (.str "unknown"))])

/-- Claim C2 contradicted: `assign_mission` is a stub.  Whatever the actor's
status — here a busy armed actor with an active session versus a fresh
offline one — the signal leaves the whole state untouched (so there is no
status gate, no rejection and no mission execution), and both actors react
to the signal identically. -/
theorem assign_mission_is_stub (p : JDict) :
    (assign_mission ⟨.ONLINE_ARMED, false, none, none, some "sess-1"⟩ p).1 =
      ⟨.ONLINE_ARMED, false, none, none, some "sess-1"⟩ ∧
    (assign_mission ⟨.OFFLINE, false, none, none, none⟩ p).1 =
      ⟨.OFFLINE, false, none, none, none⟩ ∧
    (assign_mission ⟨.ONLINE_ARMED, false, none, none, some "sess-1"⟩ p).2 =
      (assign_mission ⟨.OFFLINE, false, none, none, none⟩ p).2 :=
  ⟨rfl, rfl, rfl⟩

/-! ## TelemetrySample.from_dict (aether_common/telemetry.py) -/

/-- The telemetry enum's value strings, as accepted by
`TelemetryType(data['type'])`; an unknown string is a `ValueError`, which
`from_dict` catches and maps to `HEARTBEAT`. -/
def type_from_string : String → Option TelemetryType
  | "HEARTBEAT" => some .HEARTBEAT
  | "GLOBAL_POSITION_INT" => some .GLOBAL_POSITION_INT
  | "ATTITUDE" => some .ATTITUDE
  | "HOME_POSITION" => some .HOME_POSITION
  | "BATTERY_STATUS" => some .BATTERY_STATUS
  | _ => none

/-- Reads a numeric field; a present non-numeric value is kept as "no usable
number" (the Python dataclass stores the raw value unvalidated, and no
claim observes such a field). -/
def jnum (v : Option JValue) : Option ℚ :=
  match v with
  | some (.num q) => some q
  | _ => none

/-- Reads a boolean field. -/
def jbool (v : Option JValue) : Option Bool :=
  match v with
  | some (.bool b) => some b
  | _ => none

/-- Reads a string field. -/
def jstr (v : Option JValue) : Option String :=
  match v with
  | some (.str s') => some s'
  | _ => none

/-- The field names of the `DroneTelemetry` dataclass as modelled here
(`dataclasses.fields(cls)` in the source). -/
def known_fields : List String :=
  ["type", "timestamp", "lat", "lon", "alt", "armed", "mode",
   "battery_remaining"]

/-- The `filtered = {k: v for k, v in data.items() if k in known_fields}`
step of `from_dict`. -/
def filter_known : JDict → JDict
  | [] => []
  | kv :: rest =>
      if known_fields.contains kv.1 then kv :: filter_known rest
      else filter_known rest

/-- `TelemetrySample.from_dict`: normalizes `type` (absent or unknown-string
values become `HEARTBEAT`; a non-string raw value is likewise collapsed to
`HEARTBEAT`, observationally equivalent for every consumer since only
equality with `HOME_POSITION` is ever tested), filters the dict down to
known dataclass fields, and constructs the sample.  `error` models the one
constructor failure: per the data-model section, all fields except
`type`/`timestamp` are optional, and `from_dict` itself always supplies
`type`, so `cls(**filtered)` raises exactly when `timestamp` is absent
(Modelled from the spec: the generated dataclass is not in the source
tree). -/
def from_dict (data : JDict) : Except String DroneState :=
  let ty : TelemetryType :=
    match lookupKey "type" data with
    | some (.str s') => (type_from_string s').getD .HEARTBEAT
    | _ => .HEARTBEAT
  match lookupKey "timestamp" data with
  | none => .error "missing required field timestamp"
  | some tv =>
      .ok { type := ty,
            timestamp := jnum (some tv),
            lat := jnum (lookupKey "lat" data),
            lon := jnum (lookupKey "lon" data),
            alt := jnum (lookupKey "alt" data),
            armed := jbool (lookupKey "armed" data),
            mode := jstr (lookupKey "mode" data),
            battery_remaining := jnum (lookupKey "battery_remaining" data) }

/-- Looking a known key up after the known-field filter is the same as
looking it up directly. -/
theorem lookupKey_filter_known (k : String)
    (hk : known_fields.contains k = true) (d : JDict) :
    lookupKey k (filter_known d) = lookupKey k d := by
  induction d with
  | nil => rfl
  | cons kv rest ih =>
      by_cases hkv : known_fields.contains kv.1 = true
      · have hm : kv.1 ∈ known_fields := by simpa using hkv
        have hmk : k ∈ known_fields := by simpa using hk
        by_cases he : kv.1 = k
        · simp [filter_known, hm, hmk, lookupKey, he]
        · simp [filter_known, hm, lookupKey, he, ih]
      · have hm : kv.1 ∉ known_fields := by simpa using hkv
        have he : kv.1 ≠ k := by
          intro h
          rw [h] at hkv
          exact hkv hk
        simp [filter_known, hm, lookupKey, he, ih]

/-! ## StreamProcessor (orchestrator/src/processor.py) -/

/-- Per-drone context held by the stream processor (`DroneContext`). -/
structure DroneContext where
  detector_state : DetectorState := {}
  firmware : JDict := []
  params : JDict := []
  last_mission_plan : Option JDict := none
  deriving DecidableEq, Repr

/-- An MQTT message as seen by `on_message`: the topic already split on
`/`, and the decoded JSON body; `none` models a payload `json.loads`
raises on. -/
structure ProcMsg where
  topic : List String
  payload : Option JDict
  deriving DecidableEq, Repr

/-- The processor's mutable state: the per-drone contexts (`self.drones`). -/
structure ProcState where
  drones : List (String × DroneContext) := []
  deriving DecidableEq, Repr

/-- Lookup in the `drones` map. -/
def lookupCtx : List (String × DroneContext) → String → Option DroneContext
  | [], _ => none
  | (k, v) :: rest, i => if k = i then some v else lookupCtx rest i

/-- Update of the `drones` map. -/
def storeCtx : List (String × DroneContext) → String → DroneContext →
    List (String × DroneContext)
  | [], i, c => [(i, c)]
  | (k, v) :: rest, i, c =>
      if k = i then (i, c) :: rest else (k, v) :: storeCtx rest i c

/-- Update of the `params` dict. -/
def storeParam : JDict → String → JValue → JDict
  | [], k, v => [(k, v)]
  | (k', v') :: rest, k, v =>
      if k' = k then (k, v) :: rest else (k', v') :: storeParam rest k v

/-- `StreamProcessor.handle_context`: `topic[3] if len > 3 else ""` selects
the subtype; `firmware` replaces the whole context dict; `param` stores
`param_value` under a truthy `param_id` (a non-string `param_id`, which the
Python dict would accept as a key but no consumer reads, is dropped
here). -/
def handle_context (ctx : DroneContext) (topic : List String)
    (payload : JDict) : DroneContext :=
  let subtype := (topic.get? 3).getD ""
  if subtype = "firmware" then { ctx with firmware := payload }
  else if subtype = "param" then
    match lookupKey "param_id" payload with
    | some (.str pid) =>
        if pid ≠ "" then
          { ctx with params := storeParam ctx.params pid ((lookupKey "param_value" payload).getD .null) }
        else ctx
    | _ => ctx
  else ctx

/-- `StreamProcessor.handle_mission_plan`. -/
def handle_mission_plan (ctx : DroneContext) (payload : JDict) :
    DroneContext :=
  { ctx with last_mission_plan := some payload }

/-- `StreamProcessor.handle_telemetry`: `from_dict`, then the detector;
`none` models an exception propagating to `on_message`'s catch before the
context is mutated (the `MISSION_STARTED` publish is external I/O, not
modelled). -/
def handle_telemetry (ctx : DroneContext) (payload : JDict) :
    Option DroneContext :=
  match from_dict payload with
  | .error _ => none
  | .ok sample =>
      match evaluate ctx.detector_state sample with
      | none => none
      | some (ns, _ev) => some { ctx with detector_state := ns }

/-- `StreamProcessor.on_message`.  The whole body runs inside
`try ... except Exception`, so the handler always returns normally; an
exception thrown after the per-drone context was created leaves that
context registered.  A topic with fewer than 3 parts: early return.  An
unparseable payload (`json.loads` raises before the context is created):
state unchanged.  A `mission` message with only 3 topic parts raises
`IndexError` on `topic[3]`, caught after context creation; failures inside
`handle_telemetry` are likewise caught. -/
def on_message (st : ProcState) (msg : ProcMsg) : ProcState :=
  if msg.topic.length < 3 then st
  else
    match msg.payload with
    | none => st
    | some payload =>
        let drone_id := (msg.topic.get? 1).getD ""
        let msg_type := (msg.topic.get? 2).getD ""
        let ctx := (lookupCtx st.drones drone_id).getD {}
        let st1 : ProcState := ⟨storeCtx st.drones drone_id ctx⟩
        if msg_type = "telemetry" then
          match handle_telemetry ctx payload with
          | none => st1
          | some ctx' => ⟨storeCtx st.drones drone_id ctx'⟩
        else if msg_type = "context" then
          ⟨storeCtx st.drones drone_id (handle_context ctx msg.topic payload)⟩
        else if msg_type = "mission" then
          match msg.topic.get? 3 with
          | none => st1
          | some t4 =>
              if t4 = "detected" then
                ⟨storeCtx st.drones drone_id (handle_mission_plan ctx payload)⟩
              else st1
        else st1

/-- Claim C9: malformed inbound telemetry is logged and dropped without
crashing the consuming loop.  `from_dict` ignores unknown and extra fields
(its result depends only on the known-field projection of the dict), maps
an unknown type string to `HEARTBEAT` instead of raising, and fails exactly
when the required `timestamp` field is absent; `on_message`, whose body is
one big `try/except`, returns normally with the state unchanged on an
unparseable payload. -/
theorem malformed_input_tolerated :
    (∀ d : JDict, from_dict d = from_dict (filter_known d)) ∧
    (∀ (d : JDict) (s' : String), lookupKey "type" d = some (.str s') →
       type_from_string s' = none →
       ∀ smp, from_dict d = .ok smp → smp.type = .HEARTBEAT) ∧
    (∀ d : JDict, (∃ smp, from_dict d = .ok smp) ↔
       (lookupKey "timestamp" d).isSome = true) ∧
    (∀ (st : ProcState) (msg : ProcMsg), msg.payload = none →
       on_message st msg = st) := by
  refine ⟨?_, ?_, ?_, ?_⟩
  · intro d
    simp only [from_dict,
      lookupKey_filter_known "type" (by decide) d,
      lookupKey_filter_known "timestamp" (by decide) d,
      lookupKey_filter_known "lat" (by decide) d,
      lookupKey_filter_known "lon" (by decide) d,
      lookupKey_filter_known "alt" (by decide) d,
      lookupKey_filter_known "armed" (by decide) d,
      lookupKey_filter_known "mode" (by decide) d,
      lookupKey_filter_known "battery_remaining" (by decide) d]
  · intro d s' hty hunk smp hok
    simp only [from_dict, hty, hunk, Option.getD] at hok
    cases hts : lookupKey "timestamp" d with
    | none =>
        rw [hts] at hok
        exact absurd hok (by simp)
    | some tv =>
        rw [hts] at hok
        simp only [Except.ok.injEq] at hok
        subst hok
        rfl
  · intro d
    constructor
    · rintro ⟨smp, hok⟩
      cases hts : lookupKey "timestamp" d with
      | none =>
          simp only [from_dict, hts] at hok
          exact absurd hok (by simp)
      | some tv => simp
    · intro hsome
      cases hok : from_dict d with
      | ok smp => exact ⟨smp, rfl⟩
      | error e =>
          cases hts : lookupKey "timestamp" d with
          | none => simp [hts] at hsome
          | some tv =>
              simp only [from_dict, hts] at hok
              exact absurd hok (by simp)
  · intro st msg h
    simp [on_message, h]

/-- A malformed telemetry dict: unknown type string, an extra unknown
field, a valid timestamp. -/
def c9_dict : JDict :=
  [("type", .str "PLASMA_STORM"), ("bogus", .num 1), ("timestamp", .num 5)]

/-- Witness for `malformed_input_tolerated`: the malformed dict parses the
same with and without its unknown field, its unknown type falls back to
`HEARTBEAT`, it succeeds (timestamp present), and an unparseable payload
leaves a fresh processor untouched. -/
theorem malformed_input_tolerated_witness :
    from_dict c9_dict = from_dict (filter_known c9_dict) ∧
    (∀ smp, from_dict c9_dict = .ok smp → smp.type = .HEARTBEAT) ∧
    ((∃ smp, from_dict c9_dict = .ok smp) ↔
       (lookupKey "timestamp" c9_dict).isSome = true) ∧
    on_message ⟨[]⟩ ⟨["mav", "drone-1", "telemetry"], none⟩ = ⟨[]⟩ :=
  ⟨malformed_input_tolerated.1 c9_dict,
   malformed_input_tolerated.2.1 c9_dict "PLASMA_STORM" (by simp [c9_dict, lookupKey]) rfl,
   malformed_input_tolerated.2.2.1 c9_dict,
   malformed_input_tolerated.2.2.2 ⟨[]⟩ ⟨["mav", "drone-1", "telemetry"], none⟩ rfl⟩

end Aether
